import Mathlib

/-!
Verification of `src/load.c` (UVLoader): a shallow embedding of the loader
pipeline (`uvl_load_file`, `uvl_load_exe`, `uvl_load_elf`,
`uvl_offset_import`, `uvl_elf_check_header`, `uvl_elf_free_memory`) together
with theorems settling the specification claims.

Machine integers (`u32_t`) are modelled as `Nat` with explicit reduction
modulo `2^32` exactly where the C arithmetic can wrap.  Platform services
(file I/O, block allocation, module list queries, the resolver) are out of
scope of the repository and are modelled by environment records carrying the
outcome each call would return; the control flow that reacts to those
outcomes is translated statement by statement from `load.c`.
-/

namespace UVL

/-- Size of a machine word's value space: `u32_t` values are below `U32`. -/
def U32 : Nat := 2 ^ 32

/-- ELF magic byte 0 (`ELFMAG0`, value `0x7F`).  The constant comes from the
repository's headers, which are not part of `src/`; the value is fixed by the
spec scenario "magic bytes `0x7F 'E' 'L' 'F'`". -/
def ELFMAG0 : Nat := 0x7F

/-- ELF magic byte 1 (`'E'`). -/
def ELFMAG1 : Nat := 0x45

/-- ELF magic byte 2 (`'L'`). -/
def ELFMAG2 : Nat := 0x4C

/-- ELF magic byte 3 (`'F'`). -/
def ELFMAG3 : Nat := 0x46

/-- Modelled from the spec: first byte of the wrapped-format (SCE) magic.
The repository's `load.h` defining `SCEMAG0..SCEMAG3` is not in `src/`; the
spec only says the wrapped format has its own four magic bytes, distinct from
the ELF magic.  We use the bytes of the ASCII string `SCE\0`. -/
def SCEMAG0 : Nat := 0x53

/-- Modelled from the spec: second byte of the SCE magic (`'C'`). -/
def SCEMAG1 : Nat := 0x43

/-- Modelled from the spec: third byte of the SCE magic (`'E'`). -/
def SCEMAG2 : Nat := 0x45

/-- Modelled from the spec: fourth byte of the SCE magic (`0`). -/
def SCEMAG3 : Nat := 0x00

/-- Modelled from the spec: `SCEHDR_LEN`, the fixed wrapper-header length the
dispatcher skips for wrapped images (`load.h` is not in `src/`). -/
def SCEHDR_LEN : Nat := 0x1000

/-- ELF class constant `ELFCLASS32` (32-bit objects). -/
def ELFCLASS32 : Nat := 1

/-- ELF data-encoding constant `ELFDATA2LSB` (little endian). -/
def ELFDATA2LSB : Nat := 1

/-- ELF version constant `EV_CURRENT`. -/
def EV_CURRENT : Nat := 1

/-- ELF file type `ET_EXEC` (executable). -/
def ET_EXEC : Nat := 2

/-- Modelled from the spec: vendor file type `ET_SCE_EXEC`
("platform-executable"); its numeric value lives in a header not in `src/`. -/
def ET_SCE_EXEC : Nat := 0xFE04

/-- ELF machine constant `EM_ARM`. -/
def EM_ARM : Nat := 0x28

/-- Program-header type `PT_LOAD` (loadable segment). -/
def PT_LOAD : Nat := 1

/-- Modelled from the spec: `ATTR_MOD_INFO`, the attribute tag of the
distinguished "module info" export descriptor (header not in `src/`). -/
def ATTR_MOD_INFO : Nat := 0x8000

/-- Modelled from the spec: `ENTRY_NID`, the reserved NID designating the
program entry point (header not in `src/`).  Any nonzero constant plays the
same role in the claims. -/
def ENTRY_NID : Nat := 0x935CD196

/-- Fixed reserved load-window base address compared against in
`uvl_elf_free_memory` (`0x81000000`, hard-coded at `load.c:531`). -/
def LOAD_WINDOW_BASE : Nat := 0x81000000

/-- Error kinds of the spec's §7, mapped onto the `return -1` sites of
`load.c` (the C code folds them all into `-1`; the spec names them). -/
inductive Err where
  | ioError
  | allocationError
  | releaseError
  | unrecognizedFormat
  | invalidHeader
  | notFound
  | queryError
  | unloadError
  | noSegments
  | resolutionError
  | entryNotFound
deriving DecidableEq

/-- Observable side effects of a load: successful allocations and successful
module unloads, in program order. -/
inductive Event where
  | allocTemp
  | allocSeg (exec : Bool) (len : Nat)
  | unload (uid : Nat)
deriving DecidableEq

/-- The fields of `Elf32_Ehdr_t` read by `load.c` (`e_ident` is the 16-byte
identification array, indexed 0-6 by the checks). -/
structure Elf32_Ehdr where
  e_ident : List Nat
  e_type : Nat
  e_machine : Nat
  e_version : Nat
  e_shoff : Nat
  e_phoff : Nat
  e_phnum : Nat
  e_shstrndx : Nat
deriving DecidableEq

/-- The fields of `Elf32_Phdr_t` read by the segment loop of `uvl_load_elf`,
plus `allocOk`: the outcome the platform allocator returns for this
segment's allocation request (an environment datum, not an ELF field). -/
structure Elf32_Phdr where
  p_type : Nat
  p_offset : Nat
  p_vaddr : Nat
  p_filesz : Nat
  p_memsz : Nat
  p_flags : Nat
  allocOk : Bool
deriving DecidableEq

/-- One loaded module as seen by `uvl_elf_free_memory`: its UID, whether
`sceKernelGetModuleInfo` succeeds for it, the base addresses of its three
segment regions, and whether `sceKernelStopUnloadModule` would succeed. -/
structure LoadedMod where
  uid : Nat
  infoOk : Bool
  segs : List Nat
  unloadOk : Bool
deriving DecidableEq

/-- One import descriptor as seen by the resolution loop of `uvl_load_elf`:
whether `uvl_load_module_for_lib` succeeds for its library and whether
`uvl_resolve_imports` succeeds on it. -/
structure ImportCase where
  loadOk : Bool
  resolveOk : Bool
deriving DecidableEq

/-- The fields of `module_exports_t` read by the entry-point scan: attribute
tag, function count, and the parallel NID/entry tables (`resolve.h` is not
in `src/`; the field set is exactly what `load.c:324-339` reads). -/
structure ModuleExports where
  attr : Nat
  num_functions : Nat
  nid_table : List Nat
  entry_table : List Nat
deriving DecidableEq

/-- The fields of `module_imports_t` used by `uvl_offset_import`: the
`u32_t` values of the seven pointer fields, the three counts, and the
contents of the three entry tables the loops write through (each table is
modelled by the list of `u32_t` values stored in it). -/
structure ModuleImports where
  lib_name : Nat
  func_nid_table : Nat
  func_entry_table : Nat
  var_nid_table : Nat
  var_entry_table : Nat
  tls_nid_table : Nat
  tls_entry_table : Nat
  num_functions : Nat
  num_vars : Nat
  num_tls_vars : Nat
  func_entries : List Nat
  var_entries : List Nat
  tls_entries : List Nat
deriving DecidableEq

/-- C expression `(void*)((u32_t)p + addend)` with `addend` a signed `int`:
unsigned 32-bit wraparound addition of a signed offset. -/
def off32 (p : Nat) (a : Int) : Nat := (((p : Int) + a) % (U32 : Int)).toNat

/-- One of the three element loops of `uvl_offset_import`
(`load.c:186-197`): add `addend` to table entries at indices `0 ≤ i < n`.
The C loop stops exactly at the descriptor's own count `n`. -/
def offTable : List Nat → Nat → Int → List Nat
  | t, 0, _ => t
  | [], _ + 1, _ => []
  | x :: t, n + 1, a => off32 x a :: offTable t n a

/-- Translation of `uvl_offset_import` (`load.c:172-198`): adds `addend` to
the seven pointer fields and to the first `num_functions` / `num_vars` /
`num_tls_vars` elements of the function-, variable- and TLS-entry tables. -/
def uvl_offset_import (imp : ModuleImports) (addend : Int) : ModuleImports :=
  { imp with
    lib_name := off32 imp.lib_name addend
    func_nid_table := off32 imp.func_nid_table addend
    func_entry_table := off32 imp.func_entry_table addend
    var_nid_table := off32 imp.var_nid_table addend
    var_entry_table := off32 imp.var_entry_table addend
    tls_nid_table := off32 imp.tls_nid_table addend
    tls_entry_table := off32 imp.tls_entry_table addend
    func_entries := offTable imp.func_entries imp.num_functions addend
    var_entries := offTable imp.var_entries imp.num_vars addend
    tls_entries := offTable imp.tls_entries imp.num_tls_vars addend }

/-- Translation of `uvl_elf_check_header` (`load.c:368-427`).  The C code is
a chain of early `return -1`s; its result is `0` exactly when all nine
checks hold, which this conjunction expresses. -/
def uvl_elf_check_header (h : Elf32_Ehdr) : Bool :=
  (h.e_ident.getD 0 0 == ELFMAG0 && h.e_ident.getD 1 0 == ELFMAG1 &&
     h.e_ident.getD 2 0 == ELFMAG2 && h.e_ident.getD 3 0 == ELFMAG3) &&
  (h.e_ident.getD 4 0 == ELFCLASS32) &&
  (h.e_ident.getD 5 0 == ELFDATA2LSB) &&
  (h.e_ident.getD 6 0 == EV_CURRENT) &&
  (h.e_type == ET_EXEC || h.e_type == ET_SCE_EXEC) &&
  (h.e_machine == EM_ARM) &&
  (h.e_version == EV_CURRENT) &&
  (decide (0 < h.e_shoff) && decide (0 < h.e_phoff)) &&
  (decide (0 < h.e_shstrndx))

/-- Whether `uvl_elf_free_memory` unloads a module (`load.c:521-541`): its
info query must succeed, and one of its three segment regions must have base
address exactly `LOAD_WINDOW_BASE`. -/
def needsUnload (m : LoadedMod) : Bool :=
  m.infoOk && (m.segs.take 3).any (fun v => v == LOAD_WINDOW_BASE)

/-- The per-module loop of `uvl_elf_free_memory` (`load.c:519-542`): a
module whose info query fails is skipped; a matching module is unloaded
(inner `break` after the first matching region, so one unload per module);
a failing unload aborts with `-1`. -/
def uvl_free_loop : List LoadedMod → List Event × Except Err Unit
  | [] => ([], .ok ())
  | m :: rest =>
    if needsUnload m then
      if m.unloadOk then
        let r := uvl_free_loop rest
        (Event.unload m.uid :: r.1, r.2)
      else ([], .error .unloadError)
    else uvl_free_loop rest

/-- Translation of `uvl_elf_free_memory` (`load.c:485-543`).  `listOk` is
the outcome of `sceKernelGetModuleList`; on failure the function returns
`-1` (`QueryError`).  The min/max load-window computation over the program
headers (`load.c:499-509`) is dead for the unload decision — the comparison
at `load.c:531` is against the hard-coded `0x81000000` — so the model takes
only the module list. -/
def uvl_elf_free_memory (listOk : Bool) (ms : List LoadedMod) :
    List Event × Except Err Unit :=
  if listOk then uvl_free_loop ms else ([], .error .queryError)

/-- C expression `(length + 0xFFFFF) & ~0xFFFFF` on `u32_t`
(`load.c:265-266`): the sum wraps modulo `2^32`, and `~0xFFFFF` is the
32-bit mask `0xFFF00000`. -/
def segAlignLen (memsz : Nat) : Nat :=
  ((memsz + 0xFFFFF) % U32) &&& 0xFFF00000

/-- The segment loop of `uvl_load_elf` (`load.c:258-296`): skip entries that
are not `PT_LOAD` or have a null virtual address; allocate a code or data
block of the 1 MiB-aligned length according to the executable flag (the C
condition `p_flags & PF_X == PF_X` parses as `p_flags & (PF_X == PF_X)`,
i.e. `p_flags & 1`, which with `PF_X = 1` tests the executable bit); a
failed allocation returns `-1`. -/
def uvl_load_segments : List Elf32_Phdr → List Event × Except Err Unit
  | [] => ([], .ok ())
  | p :: rest =>
    if p.p_type != PT_LOAD || p.p_vaddr == 0 then uvl_load_segments rest
    else if p.allocOk then
      let r := uvl_load_segments rest
      (Event.allocSeg (p.p_flags &&& 1 == 1) (segAlignLen p.p_memsz) :: r.1, r.2)
    else ([], .error .allocationError)

/-- The bytes placed in a loadable segment's resident region by
`load.c:292-294`: `memcpy` of `p_filesz` bytes from the image at
`p_offset`, then `memset` of `p_memsz - p_filesz` zero bytes (an unsigned
`u32_t` subtraction, hence the wraparound form). -/
def loadSegmentBytes (img : List Nat) (off filesz memsz : Nat) : List Nat :=
  ((img.drop off).take filesz) ++ List.replicate ((U32 + memsz - filesz) % U32) 0

/-- The import-resolution loop of `uvl_load_elf` (`load.c:303-317`): a
failed `uvl_load_module_for_lib` skips the descriptor (`continue`); a
failed `uvl_resolve_imports` returns `-1` for the whole load. -/
def uvl_resolve_loop : List ImportCase → Except Err Unit
  | [] => .ok ()
  | c :: rest =>
    if !c.loadOk then uvl_resolve_loop rest
    else if c.resolveOk then uvl_resolve_loop rest
    else .error .resolutionError

/-- The inner NID scan of the entry-point search (`load.c:330-338`): for
`j` from `0` to `num_functions - 1`, return `entry_table[j]` at the first
`j` with `nid_table[j] == ENTRY_NID`.  Table reads are index-based, as in
the C. -/
def uvl_scan_entry (e : ModuleExports) : Nat → Nat → Option Nat
  | _, 0 => none
  | j, n + 1 =>
    if e.nid_table.getD j 0 == ENTRY_NID then some (e.entry_table.getD j 0)
    else uvl_scan_entry e (j + 1) n

/-- NID scan of one export descriptor over its own function count. -/
def uvl_find_entry_in (e : ModuleExports) : Option Nat :=
  uvl_scan_entry e 0 e.num_functions

/-- The export-descriptor scan of `uvl_load_elf` (`load.c:324-341`):
descriptors whose attribute is not `ATTR_MOD_INFO` are skipped; the first
matching descriptor whose NID table holds `ENTRY_NID` yields the parallel
entry; a completed scan returns `-1` (`EntryNotFound`). -/
def uvl_find_entry : List ModuleExports → Except Err Nat
  | [] => .error .entryNotFound
  | e :: rest =>
    if e.attr != ATTR_MOD_INFO then uvl_find_entry rest
    else
      match uvl_find_entry_in e with
      | some a => .ok a
      | none => uvl_find_entry rest

/-- Environment of one `uvl_load_elf` run: the header of the dispatched
image, whether `uvl_elf_get_module_info` finds the module-info section,
the module-list query outcome and the loaded modules (for
`uvl_elf_free_memory`), the program headers, and the outcomes for the
outcomes for the descriptors the two descriptor tables contain. -/
structure ElfEnv where
  hdr : Elf32_Ehdr
  modInfoOk : Bool
  listOk : Bool
  mods : List LoadedMod
  phdrs : List Elf32_Phdr
  imps : List ImportCase
  exps : List ModuleExports
deriving DecidableEq

/-- Translation of `uvl_load_elf` (`load.c:206-342`), stage by stage in
source order: header check (`:219`), module info (`:233`), memory
reclamation (`:242`), the `e_phnum < 1` check (`:252`), the segment loop
over the first `e_phnum` program headers (`:258`), import resolution
(`:303`), entry-point search (`:324`).  The pair collects the side-effect
events and the result (`entry` address or the first error). -/
def uvl_load_elf (e : ElfEnv) : List Event × Except Err Nat :=
  if !uvl_elf_check_header e.hdr then ([], .error .invalidHeader)
  else if !e.modInfoOk then ([], .error .notFound)
  else
    let fm := uvl_elf_free_memory e.listOk e.mods
    match fm.2 with
    | .error er => (fm.1, .error er)
    | .ok _ =>
      if e.hdr.e_phnum < 1 then (fm.1, .error .noSegments)
      else
        let sg := uvl_load_segments (e.phdrs.take e.hdr.e_phnum)
        match sg.2 with
        | .error er => (fm.1 ++ sg.1, .error er)
        | .ok _ =>
          match uvl_resolve_loop e.imps with
          | .error er => (fm.1 ++ sg.1, .error er)
          | .ok _ =>
            match uvl_find_entry e.exps with
            | .ok a => (fm.1 ++ sg.1, .ok a)
            | .error er => (fm.1 ++ sg.1, .error er)

/-- Environment of one `uvl_load_file` / `uvl_load_exe` run: outcomes of
`sceIoOpen`, `sceKernelAllocMemBlock`, `sceKernelGetMemBlockBase`,
`sceIoRead` (its signed return value), `sceIoClose` and
`sceKernelFreeMemBlock`, the first bytes of the image, and the environment
the dispatched `uvl_load_elf` call runs in. -/
structure FileEnv where
  openOk : Bool
  allocOk : Bool
  baseOk : Bool
  readSize : Int
  closeOk : Bool
  freeOk : Bool
  magic : List Nat
  elf : ElfEnv
deriving DecidableEq

/-- Translation of `uvl_load_file` (`load.c:27-73`), in source order: open
(`:36`), temp-block allocation (`:42`), block base (`:48`), read (`:53`),
close (`:64`); each failing call returns `-1`.  The close failure at
`load.c:64-68` returns `-1` before `*data` is assigned. -/
def uvl_load_file (f : FileEnv) : List Event × Except Err Unit :=
  if !f.openOk then ([], .error .ioError)
  else if !f.allocOk then ([], .error .allocationError)
  else if !f.baseOk then ([Event.allocTemp], .error .allocationError)
  else if f.readSize < 0 then ([Event.allocTemp], .error .ioError)
  else if !f.closeOk then ([Event.allocTemp], .error .ioError)
  else ([Event.allocTemp], .ok ())

/-- Translation of `uvl_free_data` (`load.c:80-96`): a failed
`sceKernelFindMemBlockByAddr` is only logged; the result is that of
`sceKernelFreeMemBlock`. -/
def uvl_free_data (freeOk : Bool) : Except Err Unit :=
  if freeOk then .ok () else .error .releaseError

/-- Translation of `uvl_load_exe` (`load.c:106-162`): acquire the file,
then dispatch on `magic[0]`.  The source has no `else` on the inner
four-byte checks: when byte 0 matches a format's first magic byte but bytes
1-3 do not complete it, control falls through to the free step and the
function returns `0` with `*entry` still `NULL` — modelled as `.ok none`.
A successful ELF load returns `.ok (some entry)`.  The "Invalid magic"
branch (`load.c:149-153`) returns `-1` without freeing. -/
def uvl_load_exe (f : FileEnv) : List Event × Except Err (Option Nat) :=
  let lf := uvl_load_file f
  match lf.2 with
  | .error er => (lf.1, .error er)
  | .ok _ =>
    if f.magic.getD 0 0 == ELFMAG0 then
      if f.magic.getD 1 0 == ELFMAG1 && f.magic.getD 2 0 == ELFMAG2 &&
         f.magic.getD 3 0 == ELFMAG3 then
        let le := uvl_load_elf f.elf
        match le.2 with
        | .error er => (lf.1 ++ le.1, .error er)
        | .ok a =>
          match uvl_free_data f.freeOk with
          | .ok _ => (lf.1 ++ le.1, .ok (some a))
          | .error er => (lf.1 ++ le.1, .error er)
      else
        match uvl_free_data f.freeOk with
        | .ok _ => (lf.1, .ok none)
        | .error er => (lf.1, .error er)
    else if f.magic.getD 0 0 == SCEMAG0 then
      if f.magic.getD 1 0 == SCEMAG1 && f.magic.getD 2 0 == SCEMAG2 &&
         f.magic.getD 3 0 == SCEMAG3 then
        let le := uvl_load_elf f.elf
        match le.2 with
        | .error er => (lf.1 ++ le.1, .error er)
        | .ok a =>
          match uvl_free_data f.freeOk with
          | .ok _ => (lf.1 ++ le.1, .ok (some a))
          | .error er => (lf.1 ++ le.1, .error er)
      else
        match uvl_free_data f.freeOk with
        | .ok _ => (lf.1, .ok none)
        | .error er => (lf.1, .error er)
    else (lf.1, .error .unrecognizedFormat)

/-- Well-formedness of an import descriptor: every stored `u32_t` value is
below `2^32` (automatic for the C type, explicit for the `Nat` model). -/
def ImportsWF (d : ModuleImports) : Prop :=
  d.lib_name < U32 ∧ d.func_nid_table < U32 ∧ d.func_entry_table < U32 ∧
  d.var_nid_table < U32 ∧ d.var_entry_table < U32 ∧
  d.tls_nid_table < U32 ∧ d.tls_entry_table < U32 ∧
  (∀ x ∈ d.func_entries, x < U32) ∧ (∀ x ∈ d.var_entries, x < U32) ∧
  (∀ x ∈ d.tls_entries, x < U32)

instance (d : ModuleImports) : Decidable (ImportsWF d) := by
  unfold ImportsWF; infer_instance

/-- An `ElfEnv` whose fields are all trivial; used by runs whose dispatch
never reaches the ELF loader. -/
def trivialElfEnv : ElfEnv :=
  { hdr := { e_ident := [], e_type := 0, e_machine := 0, e_version := 0,
             e_shoff := 0, e_phoff := 0, e_phnum := 0, e_shstrndx := 0 },
    modInfoOk := false, listOk := false, mods := [], phdrs := [],
    imps := [], exps := [] }

/-- A `FileEnv` whose image is a plain-ELF image (valid dispatch magic)
whose header fails the validator check for a 32-bit class: `e_ident[4] = 2`
(64-bit) instead of `ELFCLASS32`. -/
def badClassEnv : FileEnv :=
  { openOk := true, allocOk := true, baseOk := true, readSize := 64,
    closeOk := true, freeOk := true, magic := [0x7F, 0x45, 0x4C, 0x46],
    elf := { hdr := { e_ident := [0x7F, 0x45, 0x4C, 0x46, 2, 1, 1],
                      e_type := 2, e_machine := 0x28, e_version := 1,
                      e_shoff := 52, e_phoff := 52, e_phnum := 1,
                      e_shstrndx := 1 },
             modInfoOk := true, listOk := true, mods := [],
             phdrs := [⟨1, 0, 0x81000000, 64, 64, 5, true⟩],
             imps := [], exps := [] } }

/-! ## Helper lemmas -/

/-- Wraparound addition of `k` then of `-k` restores a `u32_t` value. -/
theorem off32_cancel (p : Nat) (k : Int) (hp : p < U32) :
    off32 (off32 p k) (-k) = p := by
  simp only [off32, U32] at *
  omega

/-- The table loop with `+k` then with `-k` restores a table of `u32_t`
values, for any iteration bound. -/
theorem offTable_cancel (t : List Nat) (n : Nat) (k : Int)
    (h : ∀ x ∈ t, x < U32) : offTable (offTable t n k) n (-k) = t := by
  induction t generalizing n with
  | nil => cases n <;> rfl
  | cons x t ih =>
    cases n with
    | zero => rfl
    | succ n =>
      simp only [offTable]
      refine congrArg₂ _ (off32_cancel x k (h x (by simp))) ?_
      exact ih n fun y hy => h y (by simp [hy])

/-! ## C2 — relocator round trip -/

/-- C2: for every import descriptor `d` (all of whose stored `u32_t` values
are in range, as the C type guarantees) and every integer `k`, applying
`uvl_offset_import` with addend `+k` and then with addend `-k` restores the
library-name reference, the six NID/entry table base pointers, and every
element of the function-, variable- and TLS-entry tables — i.e. the whole
descriptor. -/
theorem uvl_offset_import_roundtrip (d : ModuleImports) (k : Int)
    (hwf : ImportsWF d) :
    uvl_offset_import (uvl_offset_import d k) (-k) = d := by
  obtain ⟨h1, h2, h3, h4, h5, h6, h7, hf, hv, ht⟩ := hwf
  cases d
  simp only [uvl_offset_import] at *
  congr 1 <;>
    first
      | exact off32_cancel _ k (by assumption)
      | exact offTable_cancel _ _ k (by assumption)

/-- Witness for C2: a concrete descriptor and addend `5`, round-tripped. -/
theorem uvl_offset_import_roundtrip_witness :
    uvl_offset_import (uvl_offset_import
      { lib_name := 0x81000100, func_nid_table := 0x81000200,
        func_entry_table := 0x81000300, var_nid_table := 0x81000400,
        var_entry_table := 0x81000500, tls_nid_table := 0x81000600,
        tls_entry_table := 0x81000700, num_functions := 2, num_vars := 1,
        num_tls_vars := 0, func_entries := [0x81001000, 0x81001004],
        var_entries := [0x81002000], tls_entries := [] } 5) (-5) =
      { lib_name := 0x81000100, func_nid_table := 0x81000200,
        func_entry_table := 0x81000300, var_nid_table := 0x81000400,
        var_entry_table := 0x81000500, tls_nid_table := 0x81000600,
        tls_entry_table := 0x81000700, num_functions := 2, num_vars := 1,
        num_tls_vars := 0, func_entries := [0x81001000, 0x81001004],
        var_entries := [0x81002000], tls_entries := [] } :=
  uvl_offset_import_roundtrip _ 5 (by decide)

/-! ## C6 — import resolution driver -/

/-- C6: the resolution loop succeeds exactly when every descriptor whose
dependency module loaded also resolved (descriptors whose dependency load
failed are skipped, so they cannot make the load fail), and it fails with
`ResolutionError` exactly when some descriptor's dependency loaded but the
resolver failed on it. -/
theorem uvl_resolve_loop_spec (cs : List ImportCase) :
    (uvl_resolve_loop cs = .ok () ↔
      ∀ c ∈ cs, c.loadOk = true → c.resolveOk = true) ∧
    (uvl_resolve_loop cs = .error .resolutionError ↔
      ∃ c ∈ cs, c.loadOk = true ∧ c.resolveOk = false) := by
  induction cs with
  | nil => simp [uvl_resolve_loop]
  | cons c rest ih =>
    obtain ⟨ih1, ih2⟩ := ih
    simp only [uvl_resolve_loop, List.mem_cons, forall_eq_or_imp,
      exists_eq_or_imp]
    cases hl : c.loadOk <;> cases hr : c.resolveOk <;>
      simp [hl, hr, ih1, ih2]

/-! ## C8 — 1 MiB alignment of the allocation length -/

/-- Masking a 32-bit value with `0xFFF00000` clears its low 20 bits. -/
theorem land_high_mask (x : Nat) (hx : x < 2 ^ 32) :
    x &&& 0xFFF00000 = x / 2 ^ 20 * 2 ^ 20 := by
  have hmask : (0xFFF00000 : Nat) = 2 ^ 20 * (2 ^ 12 - 1) := by norm_num
  have hdiv : x / 2 ^ 20 * 2 ^ 20 = 2 ^ 20 * (x >>> 20) := by
    rw [Nat.shiftRight_eq_div_pow, Nat.mul_comm]
  apply Nat.eq_of_testBit_eq
  intro i
  rw [Nat.testBit_and, hmask, hdiv, Nat.testBit_mul_pow_two,
    Nat.testBit_mul_pow_two, Nat.testBit_two_pow_sub_one,
    Nat.testBit_shiftRight]
  rcases Nat.lt_or_ge i 20 with h20 | h20
  · simp [Nat.not_le_of_lt h20]
  rcases Nat.lt_or_ge i 32 with h32 | h32
  · have : 20 + (i - 20) = i := by omega
    simp [h20, this, show i - 20 < 12 by omega]
  · have hxb : x.testBit i = false :=
      Nat.testBit_lt_two_pow
        (Nat.lt_of_lt_of_le hx (Nat.pow_le_pow_right (by norm_num) h32))
    have hi : 20 + (i - 20) = i := by omega
    simp [hxb, hi]

/-- Counterexample to C8 as stated: at the 32-bit memory size
`0xFFFFFFFF`, the computed length wraps to `0`, which is not greater than
or equal to the memory size — so the claimed property fails for this `m`. -/
theorem segAlignLen_overflow_counterexample :
    segAlignLen 0xFFFFFFFF = 0 ∧ ¬ (0xFFFFFFFF ≤ segAlignLen 0xFFFFFFFF) := by
  constructor
  · rfl
  · intro h
    rw [show segAlignLen 0xFFFFFFFF = 0 from rfl] at h
    omega

/-- C8 amended: when the `u32_t` sum `m + 0xFFFFF` does not wrap — that is,
for every memory size `m ≤ 0xFFF00000` — the length passed to the allocator
is the smallest multiple of `2^20` that is at least `m` (it is a multiple
of `2^20`, at least `m`, and below `m + 2^20`).  For larger `m` the 32-bit
addition overflows and the computed length wraps around (see the
counterexample). -/
theorem segAlignLen_rounds_up (m : Nat) (hm : m ≤ 0xFFF00000) :
    2 ^ 20 ∣ segAlignLen m ∧ m ≤ segAlignLen m ∧ segAlignLen m < m + 2 ^ 20 := by
  have hlt : m + 0xFFFFF < 2 ^ 32 := by omega
  have hmod : (m + 0xFFFFF) % U32 = m + 0xFFFFF := by
    apply Nat.mod_eq_of_lt
    simpa [U32] using hlt
  have hval : segAlignLen m = (m + 0xFFFFF) / 2 ^ 20 * 2 ^ 20 := by
    rw [segAlignLen, hmod, land_high_mask _ hlt]
  have hdm := Nat.div_add_mod (m + 0xFFFFF) (2 ^ 20)
  have hr : (m + 0xFFFFF) % 2 ^ 20 < 2 ^ 20 := Nat.mod_lt _ (by norm_num)
  refine ⟨hval ▸ dvd_mul_left _ _, ?_, ?_⟩ <;> rw [hval] <;> omega

/-- Witness for C8: the spec scenario memory size `4096` rounds to `2^20`
(1 MiB); the hypothesis `4096 ≤ 0xFFF00000` is discharged concretely. -/
theorem segAlignLen_rounds_up_witness :
    2 ^ 20 ∣ segAlignLen 4096 ∧ 4096 ≤ segAlignLen 4096 ∧
      segAlignLen 4096 < 4096 + 2 ^ 20 :=
  segAlignLen_rounds_up 4096 (by norm_num)

/-! ## C3 — segment loading round trip -/

/-- C3: for a loadable program-header entry with file size `f` and memory
size `m ≥ f` (both `u32_t`), given that the image holds the `f` source
bytes at the entry's file offset, the resident region built by the
copy-then-zero step has length `m`, its bytes `[0, f)` equal the source
bytes of the image starting at the file offset, and its bytes `[f, m)` are
all zero. -/
theorem loadSegmentBytes_spec (img : List Nat) (off f m : Nat)
    (hfm : f ≤ m) (hm : m < U32) (hoff : off + f ≤ img.length) :
    (loadSegmentBytes img off f m).length = m ∧
    (∀ i, i < f → (loadSegmentBytes img off f m)[i]? = img[off + i]?) ∧
    (∀ i, f ≤ i → i < m → (loadSegmentBytes img off f m)[i]? = some 0) := by
  have hz : (U32 + m - f) % U32 = m - f := by
    simp only [U32] at hm ⊢
    omega
  have hlen1 : ((img.drop off).take f).length = f := by
    simp only [List.length_take, List.length_drop]
    omega
  refine ⟨?_, ?_, ?_⟩
  · simp only [loadSegmentBytes, List.length_append, List.length_replicate,
      hz, hlen1]
    omega
  · intro i hi
    rw [loadSegmentBytes, List.getElem?_append_left (by omega : i < ((img.drop off).take f).length),
      List.getElem?_take_of_lt hi, List.getElem?_drop]
  · intro i hif him
    rw [loadSegmentBytes, List.getElem?_append_right (by omega : ((img.drop off).take f).length ≤ i),
      hz, hlen1, List.getElem?_replicate, if_pos (by omega)]

/-- Witness for C3: a five-byte image, file offset `1`, file size `2`,
memory size `4`: the first two resident bytes are the source bytes at
offsets `1` and `2`, and bytes `2` and `3` are zero. -/
theorem loadSegmentBytes_spec_witness :
    (loadSegmentBytes [10, 11, 12, 13, 14] 1 2 4).length = 4 ∧
    (loadSegmentBytes [10, 11, 12, 13, 14] 1 2 4)[0]? =
      [10, 11, 12, 13, 14][1]? ∧
    (loadSegmentBytes [10, 11, 12, 13, 14] 1 2 4)[1]? =
      [10, 11, 12, 13, 14][2]? ∧
    (loadSegmentBytes [10, 11, 12, 13, 14] 1 2 4)[2]? = some 0 ∧
    (loadSegmentBytes [10, 11, 12, 13, 14] 1 2 4)[3]? = some 0 := by
  have h := loadSegmentBytes_spec [10, 11, 12, 13, 14] 1 2 4 (by norm_num)
    (by norm_num [U32]) (by norm_num)
  exact ⟨h.1, h.2.1 0 (by norm_num), h.2.1 1 (by norm_num),
    h.2.2 2 (by norm_num) (by norm_num), h.2.2 3 (by norm_num) (by norm_num)⟩

/-! ## C7 — address-space reclamation -/

/-- When every occupant module can be unloaded, the reclamation loop
succeeds and unloads exactly the modules `needsUnload` selects, in order. -/
theorem uvl_free_loop_ok (ms : List LoadedMod)
    (h : ∀ m ∈ ms, needsUnload m = true → m.unloadOk = true) :
    uvl_free_loop ms =
      ((ms.filter needsUnload).map (fun m => Event.unload m.uid), .ok ()) := by
  induction ms with
  | nil => rfl
  | cons m rest ih =>
    have hrest : ∀ x ∈ rest, needsUnload x = true → x.unloadOk = true :=
      fun x hx => h x (List.mem_cons_of_mem _ hx)
    cases hn : needsUnload m with
    | false => simpa [uvl_free_loop, hn] using ih hrest
    | true =>
      have hu : m.unloadOk = true := h m (by simp) hn
      simp [uvl_free_loop, hn, hu, ih hrest]

/-- When some occupant module cannot be unloaded, the reclamation loop
fails (the C `return -1`, surfaced as `UnloadError`). -/
theorem uvl_free_loop_err (ms : List LoadedMod)
    (h : ∃ m ∈ ms, needsUnload m = true ∧ m.unloadOk = false) :
    (uvl_free_loop ms).2 = .error .unloadError := by
  induction ms with
  | nil => simp at h
  | cons m rest ih =>
    obtain ⟨x, hx, hxn, hxu⟩ := h
    rcases List.mem_cons.mp hx with hx | hx
    · subst hx
      cases hu : x.unloadOk with
      | true => rw [hu] at hxu; cases hxu
      | false => simp [uvl_free_loop, hxn, hu]
    · cases hn : needsUnload m with
      | false => simpa [uvl_free_loop, hn] using ih ⟨x, hx, hxn, hxu⟩
      | true =>
        cases hu : m.unloadOk with
        | false => simp [uvl_free_loop, hn, hu]
        | true => simpa [uvl_free_loop, hn, hu] using ih ⟨x, hx, hxn, hxu⟩

/-- C7: with a successful module-list query, (1) a module is selected for
unloading exactly when its info query succeeds and one of its three segment
regions has base address exactly `LOAD_WINDOW_BASE` (`0x81000000`) — an
info-query failure merely skips the module; (2) when every selected module
unloads successfully, reclamation succeeds and the unload events are
exactly the selected modules; (3) when some selected module fails to
unload, reclamation fails with `UnloadError`, which `uvl_load_elf`
propagates, aborting the whole load. -/
theorem uvl_elf_free_memory_spec (ms : List LoadedMod) :
    (∀ m : LoadedMod, needsUnload m = true ↔
      (m.infoOk = true ∧ LOAD_WINDOW_BASE ∈ m.segs.take 3)) ∧
    ((∀ m ∈ ms, needsUnload m = true → m.unloadOk = true) →
      uvl_elf_free_memory true ms =
        ((ms.filter needsUnload).map (fun m => Event.unload m.uid), .ok ())) ∧
    ((∃ m ∈ ms, needsUnload m = true ∧ m.unloadOk = false) →
      ∀ e : ElfEnv, e.listOk = true → e.mods = ms →
        uvl_elf_check_header e.hdr = true → e.modInfoOk = true →
        (uvl_load_elf e).2 = .error .unloadError) := by
  refine ⟨?_, ?_, ?_⟩
  · intro m
    simp [needsUnload, List.any_eq_true]
  · intro h
    simpa [uvl_elf_free_memory] using uvl_free_loop_ok ms h
  · intro h e hlist hmods hhdr hmi
    have hfm : (uvl_elf_free_memory e.listOk e.mods).2 = .error .unloadError := by
      rw [hlist, hmods]
      simpa [uvl_elf_free_memory] using uvl_free_loop_err ms h
    unfold uvl_load_elf
    rw [hhdr, hmi]
    simp only [Bool.not_true, Bool.false_eq_true, if_false]
    revert hfm
    cases (uvl_elf_free_memory e.listOk e.mods).2 with
    | error er => intro hfm; cases hfm; rfl
    | ok u => intro hfm; cases hfm

/-- Witness for C7: two modules — one whose info query fails (skipped, not
unloaded) and one whose second region sits at `0x81000000` (unloaded) —
give exactly one unload event; and a run containing a matching module whose
unload fails makes a full `uvl_load_elf` run abort with `UnloadError`. -/
theorem uvl_elf_free_memory_spec_witness :
    uvl_elf_free_memory true
      [⟨7, false, [0x81000000, 0, 0], true⟩,
       ⟨8, true, [0x60000000, 0x81000000, 0], true⟩] =
      ([Event.unload 8], .ok ()) ∧
    (uvl_load_elf
      { hdr := { e_ident := [0x7F, 0x45, 0x4C, 0x46, 1, 1, 1], e_type := 2,
                 e_machine := 0x28, e_version := 1, e_shoff := 52,
                 e_phoff := 52, e_phnum := 1, e_shstrndx := 1 },
        modInfoOk := true, listOk := true,
        mods := [⟨9, true, [0x81000000, 0, 0], false⟩],
        phdrs := [], imps := [], exps := [] }).2 = .error .unloadError := by
  constructor
  · exact (uvl_elf_free_memory_spec _).2.1 (by decide)
  · exact (uvl_elf_free_memory_spec _).2.2
      ⟨⟨9, true, [0x81000000, 0, 0], false⟩, by simp, by decide, by decide⟩
      _ rfl rfl (by decide) rfl

/-! ## C9 — entry-point finder -/

/-- A scan window containing no occurrence of `ENTRY_NID` yields nothing. -/
theorem uvl_scan_entry_none (e : ModuleExports) (n s : Nat)
    (h : ∀ j, s ≤ j → j < s + n → e.nid_table.getD j 0 ≠ ENTRY_NID) :
    uvl_scan_entry e s n = none := by
  induction n generalizing s with
  | zero => rfl
  | succ n ih =>
    have hs : e.nid_table.getD s 0 ≠ ENTRY_NID := h s le_rfl (by omega)
    simp only [uvl_scan_entry, beq_iff_eq, hs, if_false]
    exact ih (s + 1) fun j h1 h2 => h j (by omega) (by omega)

/-- If index `j` inside the scan window holds the first occurrence of
`ENTRY_NID` (at or after the window start), the scan returns the parallel
entry-table element at `j`. -/
theorem uvl_scan_entry_found (e : ModuleExports) (n s j : Nat)
    (hsj : s ≤ j) (hjn : j < s + n)
    (hj : e.nid_table.getD j 0 = ENTRY_NID)
    (hmin : ∀ i, s ≤ i → i < j → e.nid_table.getD i 0 ≠ ENTRY_NID) :
    uvl_scan_entry e s n = some (e.entry_table.getD j 0) := by
  induction n generalizing s with
  | zero => omega
  | succ n ih =>
    by_cases hs : e.nid_table.getD s 0 = ENTRY_NID
    · have : j = s := by
        by_contra hne
        exact hmin s le_rfl (by omega) hs
      subst this
      have hcond : (e.nid_table.getD j 0 == ENTRY_NID) = true :=
        beq_iff_eq.mpr hs
      simp only [uvl_scan_entry, hcond, if_true]
    · have hsj2 : s + 1 ≤ j := by
        rcases Nat.eq_or_lt_of_le hsj with h | h
        · subst h; exact absurd hj hs
        · omega
      simp only [uvl_scan_entry, beq_iff_eq, hs, if_false]
      exact ih (s + 1) hsj2 (by omega)
        fun i h1 h2 => hmin i (by omega) h2

/-- C9: (1) if every descriptor in the export run whose attribute is the
module-info tag scans without finding the reserved entry NID, the finder
fails with `EntryNotFound` after the full scan; (2) descriptors whose
attribute is not the module-info tag are skipped, and for the first
module-info descriptor whose NID table holds `ENTRY_NID` — first at index
`j` within its function count — the finder returns element `j` of the
parallel entry table. -/
theorem uvl_find_entry_spec :
    (∀ es : List ModuleExports,
      (∀ e ∈ es, e.attr = ATTR_MOD_INFO → uvl_find_entry_in e = none) →
        uvl_find_entry es = .error .entryNotFound) ∧
    (∀ (pre : List ModuleExports) (d : ModuleExports)
        (post : List ModuleExports) (j : Nat),
      (∀ e ∈ pre, e.attr = ATTR_MOD_INFO → uvl_find_entry_in e = none) →
      d.attr = ATTR_MOD_INFO → j < d.num_functions →
      d.nid_table.getD j 0 = ENTRY_NID →
      (∀ i, i < j → d.nid_table.getD i 0 ≠ ENTRY_NID) →
      uvl_find_entry (pre ++ d :: post) = .ok (d.entry_table.getD j 0)) := by
  constructor
  · intro es h
    induction es with
    | nil => rfl
    | cons e rest ih =>
      have hrest := fun x hx => h x (List.mem_cons_of_mem _ hx)
      by_cases ha : e.attr = ATTR_MOD_INFO
      · simp only [uvl_find_entry, ha, bne_self_eq_false, if_false]
        rw [h e (by simp) ha]
        exact ih hrest
      · simp only [uvl_find_entry]
        rw [if_pos (by simpa using ha)]
        exact ih hrest
  · intro pre d post j hpre hd hjn hj hmin
    induction pre with
    | nil =>
      have hfound : uvl_find_entry_in d = some (d.entry_table.getD j 0) :=
        uvl_scan_entry_found d d.num_functions 0 j (Nat.zero_le j)
          (by omega) hj fun i _ h2 => hmin i h2
      simp [uvl_find_entry, hd, hfound]
    | cons e pre ih =>
      have hr := ih fun x hx => hpre x (List.mem_cons_of_mem _ hx)
      by_cases ha : e.attr = ATTR_MOD_INFO
      · simp only [List.cons_append, uvl_find_entry, ha, bne_self_eq_false,
          if_false]
        rw [hpre e (by simp) ha]
        exact hr
      · simp only [List.cons_append, uvl_find_entry]
        rw [if_pos (by simpa using ha)]
        exact hr

/-- Witness for C9: the spec scenario — a single module-info descriptor
whose NID table holds the reserved identifier at position `2` — returns the
address at position `2` of the parallel entry table. -/
theorem uvl_find_entry_spec_witness :
    uvl_find_entry
      [{ attr := ATTR_MOD_INFO, num_functions := 3,
         nid_table := [1, 2, ENTRY_NID],
         entry_table := [0x81000100, 0x81000200, 0x81000300] }] =
      .ok 0x81000300 :=
  uvl_find_entry_spec.2 [] _ [] 2 (by simp) rfl (by norm_num) (by decide)
    (by intro i hi; interval_cases i <;> decide)

/-! ## Pipeline-level claims -/

/-- Evaluation of `uvl_load_file` when open, allocation, base lookup and
read all succeed: the result depends only on the close outcome, and a
close failure is fatal (`load.c:64-68` returns `-1`). -/
theorem uvl_load_file_eq (f : FileEnv) (hopen : f.openOk = true)
    (halloc : f.allocOk = true) (hbase : f.baseOk = true)
    (hread : 0 ≤ f.readSize) :
    uvl_load_file f = ([Event.allocTemp],
      if f.closeOk then .ok () else .error .ioError) := by
  have hneg : ¬ f.readSize < 0 := not_lt.mpr hread
  cases hc : f.closeOk <;>
    simp [uvl_load_file, hopen, halloc, hbase, hneg, hc]

/-! ## C1 — dispatch on unrecognized leading bytes -/

/-- C1 (divergence witness): for an image whose byte 0 is the ELF magic
byte `0x7F` but whose bytes 1-3 do not complete the ELF magic, and with
every platform call succeeding, `uvl_load_exe` returns success with the
entry pointer still `NULL` (`.ok none`) — it neither invokes the ELF
loader nor fails with `UnrecognizedFormat` as the claim requires.  The
source's inner magic check (`load.c:125-136`) has no `else`, so control
falls through to the free step and the final `return 0`. -/
theorem uvl_load_exe_incomplete_magic_bug :
    uvl_load_exe { openOk := true, allocOk := true, baseOk := true,
                   readSize := 4, closeOk := true, freeOk := true,
                   magic := [0x7F, 0, 0, 0], elf := trivialElfEnv } =
      ([Event.allocTemp], .ok none) ∧
    (Except.ok none : Except Err (Option Nat)) ≠ .error .unrecognizedFormat := by
  exact ⟨rfl, by simp⟩

/-! ## C4 — close failure during acquisition -/

/-- Counterexample to C4 as stated: a run in which open, allocation, base
lookup and read all succeed but close fails does not return the read
buffer — `uvl_load_file` fails (`load.c:64-68` returns `-1`), contrary to
the claim that the close failure leaves the acquire successful. -/
theorem uvl_load_file_close_counterexample :
    uvl_load_file { openOk := true, allocOk := true, baseOk := true,
                    readSize := 4, closeOk := false, freeOk := true,
                    magic := [0x7F, 0x45, 0x4C, 0x46], elf := trivialElfEnv } =
      ([Event.allocTemp], .error .ioError) := rfl

/-- C4 amended: if opening, allocating, locating the block base and
reading all succeed but closing the file handle fails, the acquirer fails
with an error — a close failure is fatal for `uvl_load_file` and the
already-read data is not returned (the C returns `-1` before assigning
`*data`). -/
theorem uvl_load_file_close_failure (f : FileEnv) (hopen : f.openOk = true)
    (halloc : f.allocOk = true) (hbase : f.baseOk = true)
    (hread : 0 ≤ f.readSize) (hclose : f.closeOk = false) :
    uvl_load_file f = ([Event.allocTemp], .error .ioError) := by
  rw [uvl_load_file_eq f hopen halloc hbase hread, hclose, if_neg (by simp)]

/-- Witness for C4: the amended statement at a concrete run whose close
call fails. -/
theorem uvl_load_file_close_failure_witness :
    uvl_load_file { openOk := true, allocOk := true, baseOk := true,
                    readSize := 9, closeOk := false, freeOk := true,
                    magic := [0x7F, 0x45, 0x4C, 0x46], elf := trivialElfEnv } =
      ([Event.allocTemp], .error .ioError) :=
  uvl_load_file_close_failure _ rfl rfl rfl (by norm_num) rfl

/-! ## C5 — invalid header handling -/

/-- Counterexample to C5 as stated: for a header failing the 32-bit class
check, the load does fail with `InvalidHeader` — but an allocation has
been performed: the acquirer allocated the image read buffer
(`sceKernelAllocMemBlock` at `load.c:42`) before the header was ever
inspected, so the run's event list is not empty. -/
theorem uvl_load_exe_invalid_header_counterexample :
    uvl_load_exe badClassEnv = ([Event.allocTemp], .error .invalidHeader) ∧
    (uvl_load_exe badClassEnv).1 ≠ [] := by
  refine ⟨rfl, ?_⟩
  intro h
  rw [show (uvl_load_exe badClassEnv).1 = [Event.allocTemp] from rfl] at h
  cases h

/-- C5 amended: for any acquired image that reaches the ELF loader (its
leading bytes are a complete plain-ELF or wrapped-format magic) whose
header fails at least one of the nine validator checks, `uvl_load_exe`
fails with `InvalidHeader` and performs no allocation beyond the image
read buffer already made by the acquirer — in particular no segment
allocation and no module unload. -/
theorem uvl_load_exe_invalid_header (f : FileEnv) (hopen : f.openOk = true)
    (halloc : f.allocOk = true) (hbase : f.baseOk = true)
    (hread : 0 ≤ f.readSize) (hclose : f.closeOk = true)
    (hmagic : (f.magic.getD 0 0 = ELFMAG0 ∧ f.magic.getD 1 0 = ELFMAG1 ∧
               f.magic.getD 2 0 = ELFMAG2 ∧ f.magic.getD 3 0 = ELFMAG3) ∨
              (f.magic.getD 0 0 = SCEMAG0 ∧ f.magic.getD 1 0 = SCEMAG1 ∧
               f.magic.getD 2 0 = SCEMAG2 ∧ f.magic.getD 3 0 = SCEMAG3))
    (hhdr : uvl_elf_check_header f.elf.hdr = false) :
    uvl_load_exe f = ([Event.allocTemp], .error .invalidHeader) := by
  have hlf : uvl_load_file f = ([Event.allocTemp], .ok ()) := by
    rw [uvl_load_file_eq f hopen halloc hbase hread, hclose, if_pos rfl]
  have hle : uvl_load_elf f.elf = ([], .error .invalidHeader) := by
    unfold uvl_load_elf
    rw [hhdr]
    rfl
  rcases hmagic with ⟨h0, h1, h2, h3⟩ | ⟨h0, h1, h2, h3⟩ <;>
    simp only [List.getD_eq_getElem?_getD] at h0 h1 h2 h3 <;>
    simp [uvl_load_exe, hlf, hle, h0, h1, h2, h3,
      ELFMAG0, ELFMAG1, ELFMAG2, ELFMAG3, SCEMAG0, SCEMAG1, SCEMAG2, SCEMAG3]

/-- Witness for C5: the amended statement at the concrete bad-class run. -/
theorem uvl_load_exe_invalid_header_witness :
    uvl_load_exe badClassEnv = ([Event.allocTemp], .error .invalidHeader) :=
  uvl_load_exe_invalid_header badClassEnv rfl rfl rfl (by decide) rfl
    (Or.inl (by exact ⟨rfl, rfl, rfl, rfl⟩)) (by decide)

/-! ## C10 — reclamation precedes the program-header-count check -/

/-- C10: `uvl_load_elf` runs address-space reclamation (`load.c:242`)
before the `e_phnum < 1` check (`load.c:252`), so for an image whose
header validates and whose module info is found but which has zero program
headers, every loaded module with a segment at the reserved load-window
base has already been stopped and unloaded (the unload events are exactly
those of the reclamation pass) by the time the load fails with
`NoSegments`. -/
theorem uvl_load_elf_reclaims_before_phnum_check (e : ElfEnv)
    (hhdr : uvl_elf_check_header e.hdr = true) (hmi : e.modInfoOk = true)
    (hlist : e.listOk = true) (hph : e.hdr.e_phnum = 0)
    (hunl : ∀ m ∈ e.mods, needsUnload m = true → m.unloadOk = true) :
    uvl_load_elf e =
      ((e.mods.filter needsUnload).map (fun m => Event.unload m.uid),
       .error .noSegments) := by
  have hfm : uvl_elf_free_memory e.listOk e.mods =
      ((e.mods.filter needsUnload).map (fun m => Event.unload m.uid),
       .ok ()) := by
    rw [hlist]
    simpa [uvl_elf_free_memory] using uvl_free_loop_ok e.mods hunl
  simp [uvl_load_elf, hhdr, hmi, hfm, hph]

/-- Witness for C10: a concrete valid-header, zero-program-header run with
one module occupying the load window: the module's unload event is emitted
and the load fails with `NoSegments`. -/
theorem uvl_load_elf_reclaims_before_phnum_check_witness :
    uvl_load_elf
      { hdr := { e_ident := [0x7F, 0x45, 0x4C, 0x46, 1, 1, 1], e_type := 2,
                 e_machine := 0x28, e_version := 1, e_shoff := 52,
                 e_phoff := 52, e_phnum := 0, e_shstrndx := 1 },
        modInfoOk := true, listOk := true,
        mods := [⟨5, true, [0x81000000, 0, 0], true⟩],
        phdrs := [], imps := [], exps := [] } =
      ([Event.unload 5], .error .noSegments) :=
  uvl_load_elf_reclaims_before_phnum_check _ (by decide) rfl rfl rfl
    (by decide)

end UVL
